import Mathlib

/-!
Shallow embedding of the agentscope RPC agent platform core
(`src/agentscope/agents/rpc_agent.py`) together with the
`ImportErrorReporter` helper (`src/agentscope/utils/tools.py`).

Python exceptions are modelled by `Except PyError`; a handler that both
mutates the platform and may raise returns `AgentPlatform × Except PyError α`
so that mutations performed before the raise survive, exactly as in the
source.  Machine-level details that are not in the two source files
(the `Msg` codec, the `AgentBase` collaborator, the class registry and the
network) are modelled from the spec and marked as such in doc comments.
-/

namespace AgentScope

/-- Domain message.  Modelled from the spec: the `Msg` class lives in
`agentscope.message`, which is not under `src/`; spec section 3 gives its
fields (`name`, `role` defaulting to "assistant", opaque `content` that may
be null, optional `url`, an optional integer `task_id`, and a `__status`
tag — here called `status` — whose value "ERROR" marks a failure Msg).
Content values are modelled as optional strings (null or text). -/
structure Msg where
  name : String
  role : String := "assistant"
  content : Option String := none
  url : Option String := none
  task_id : Option Nat := none
  status : Option String := none
deriving Repr, DecidableEq

/-- Python exceptions relevant to the embedded code paths. -/
inductive PyError
  | attributeError (message : String)
  | keyError (key : String)
  | typeError (message : String)
  | valueError (message : String)
  | importError (message : String)
  | agentException (tb : String)
deriving Repr, DecidableEq

/-- The string produced by `traceback.format_exc()` for a caught exception.
An exception raised by an agent's own `reply` carries its formatted
traceback directly. -/
def formatExc : PyError → String
  | .attributeError m => "AttributeError: " ++ m
  | .keyError k => "KeyError: " ++ k
  | .typeError m => "TypeError: " ++ m
  | .valueError m => "ValueError: " ++ m
  | .importError m => "ImportError: " ++ m
  | .agentException tb => tb

deriving instance DecidableEq for Except

/-- A message travelling through the platform is either a concrete `Msg` or a
`PlaceholderMessage`.  Modelled from the spec: `PlaceholderMessage` lives in
`agentscope.message` (not under `src/`); its `update_value` performs a
blocking `_get` RPC to the origin server and fills in the concrete fields.
We represent a placeholder by the outcome that resolution would produce
(either the resolved `Msg` or the exception the network call raises). -/
inductive MsgLike
  | concrete (m : Msg)
  | placeholder (resolution : Except PyError Msg)
deriving DecidableEq

/-- Agent instance.  Modelled from the spec: `AgentBase` lives in
`agentscope.agents.agent` (not under `src/`); spec sections 3 and 6 give the
collaborator contract: `name`, `agent_id`, recorded `init_settings`
(args/kwargs captured at construction) and `reply : Msg? → Msg`.  A `reply`
that raises is modelled by returning `Except.error`. -/
structure Agent where
  name : String
  agent_id : String
  class_name : String
  init_args : List String
  init_kwargs : List (String × String)
  reply : Option Msg → Except PyError Msg

/-- The agent constructor blob `{class_name, args, kwargs}` carried by
`_create_agent` requests (argument values modelled as strings). -/
structure AgentConfigs where
  class_name : String
  args : List String
  kwargs : List (String × String)
deriving Repr, DecidableEq

/-- Wire payload of an `RpcMsg.value`.  Modelled from the spec: the codec
(`serialize` / `deserialize` in `agentscope.message`, not under `src/`) is
round-trippable, so a serialized object is represented by the object it
encodes, tagged by its shape. -/
inductive Wire
  | wmsg (m : MsgLike)
  | wmsgs (ms : List MsgLike)
  | wtask (task_id : Nat)
  | wblob (cfg : AgentConfigs)
  | wtext (s : String)
deriving DecidableEq

/-- The RPC envelope `RpcMsg {target_func, agent_id, value}`; an absent
`value` models empty bytes. -/
structure RpcMsg where
  target_func : String := ""
  agent_id : String := ""
  value : Option Wire := none
deriving DecidableEq

/-- State of one entry of the result pool: the source stores a
`threading.Condition` while the task is pending and the reply `Msg` once it
is done. -/
inductive TaskState
  | pending
  | done (m : Msg)
deriving Repr, DecidableEq

/-- The result pool (`ExpiringDict`) modelled as an insertion-ordered
association list; age-based expiry appears as entry removal. -/
abbrev ResultPool := List (Nat × TaskState)

/-- `ExpiringDict.get`: `none` when the key is absent or expired. -/
def poolGet (pool : ResultPool) (tid : Nat) : Option TaskState :=
  (pool.find? (fun e => e.1 == tid)).map (fun e => e.2)

/-- `ExpiringDict.__setitem__`: replace in place when the key is present;
otherwise evict the oldest entry if the pool is at capacity, then append. -/
def poolSet (maxLen : Nat) (pool : ResultPool) (tid : Nat) (st : TaskState) :
    ResultPool :=
  if (pool.find? (fun e => e.1 == tid)).isSome then
    pool.map (fun e => if e.1 == tid then (tid, st) else e)
  else
    (if maxLen ≤ pool.length then pool.drop 1 else pool) ++ [(tid, st)]

/-- The per-server agent registry `agent_pool : dict[str, AgentBase]`. -/
abbrev AgentPool := List (String × Agent)

/-- Dictionary lookup `agent_pool.get(agent_id)`. -/
def agentGet (pool : AgentPool) (agent_id : String) : Option Agent :=
  (pool.find? (fun e => e.1 == agent_id)).map (fun e => e.2)

/-- Server state of `AgentPlatform` (source lines 544-576).  The
`executor_queue` records the jobs handed to `executor.submit` that have not
run yet; locks are modelled by treating each locked section as atomic. -/
structure AgentPlatform where
  host : String := "localhost"
  port : Option Nat := none
  max_pool_size : Nat := 8192
  max_timeout_seconds : Nat := 1800
  task_id_counter : Nat := 0
  result_pool : ResultPool := []
  agent_pool : AgentPool := []
  executor_queue : List (Nat × String × Option MsgLike) := []

/-- `AgentPlatform.__init__` (source lines 544-576): counter starts at 0,
empty pools, empty executor. -/
def initPlatform (host : String) (port : Option Nat) (max_pool_size : Nat)
    (max_timeout_seconds : Nat) : AgentPlatform :=
  { host := host
    port := port
    max_pool_size := max_pool_size
    max_timeout_seconds := max_timeout_seconds
    task_id_counter := 0
    result_pool := []
    agent_pool := []
    executor_queue := [] }

/-- `AgentPlatform.get_task_id` (source lines 578-582): under
`task_id_lock`, increment the counter and return it. -/
def get_task_id (p : AgentPlatform) : Nat × AgentPlatform :=
  let c := p.task_id_counter + 1
  (c, { p with task_id_counter := c })

/-- `AgentPlatform.agent_exists` (source lines 584-593). -/
def agent_exists (p : AgentPlatform) (agent_id : String) : Bool :=
  (agentGet p.agent_pool agent_id).isSome

/-- The returned values of `n` successive `get_task_id` calls. -/
def taskIds : AgentPlatform → Nat → List Nat
  | _, 0 => []
  | p, n + 1 =>
    let r := get_task_id p
    r.1 :: taskIds r.2 n

theorem taskIds_eq_range (p : AgentPlatform) (n : Nat) :
    taskIds p n = List.range' (p.task_id_counter + 1) n := by
  induction n generalizing p with
  | zero => simp [taskIds]
  | succ k ih =>
    simp [taskIds, get_task_id, List.range'_succ, ih]

/-- gRPC status codes used by the dispatcher. -/
inductive StatusCode
  | INVALID_ARGUMENT
deriving Repr, DecidableEq

/-- Outcome of the dispatch performed by `AgentPlatform.call_func`: either
the call is aborted (`context.abort(code, message)` raises inside gRPC and
fails the RPC) or the attribute named by `target_func` is invoked on the
request.  The behaviour of the invoked handlers is given by the individual
handler definitions below. -/
inductive Dispatch
  | abortCall (code : StatusCode) (message : String)
  | invokeHandler (target : String)
deriving Repr, DecidableEq

/-- The attribute names of an `AgentPlatform` object: the instance
attributes set in `__init__`, the methods of the class (source lines
541-810), and the standard attributes every Python object inherits.
`hasattr(self, name)` is true exactly for these names. -/
def agentPlatformAttrs : List String :=
  ["host", "port", "result_pool", "executor", "task_id_lock",
   "agent_id_lock", "task_id_counter", "agent_pool",
   "get_task_id", "agent_exists", "check_and_generate_agent",
   "check_and_delete_agent", "call_func", "_reply", "_get", "_observe",
   "_create_agent", "_clone_agent", "_delete_agent", "process_messages",
   "__init__", "__class__", "__dict__", "__doc__", "__module__",
   "__repr__", "__str__", "__hash__", "__eq__", "__ne__",
   "__getattribute__", "__setattr__", "__delattr__", "__dir__",
   "__sizeof__", "__reduce__", "__reduce_ex__", "__format__", "__new__",
   "__init_subclass__", "__subclasshook__", "__weakref__"]

/-- `AgentPlatform.call_func` (source lines 642-662): if
`hasattr(self, target_func)` then, unless the target is `_create_agent` or
`_get`, abort with INVALID_ARGUMENT when the agent is missing, otherwise
dispatch to `getattr(self, target_func)`; if `hasattr` fails, abort with
INVALID_ARGUMENT "Unsupported method ...". -/
def call_func (p : AgentPlatform) (req : RpcMsg) : Dispatch :=
  if agentPlatformAttrs.contains req.target_func then
    if !(["_create_agent", "_get"].contains req.target_func)
        && !(agent_exists p req.agent_id) then
      .abortCall .INVALID_ARGUMENT
        ("Agent [" ++ req.agent_id ++ "] not exists.")
    else
      .invokeHandler req.target_func
  else
    .abortCall .INVALID_ARGUMENT
      ("Unsupported method " ++ req.target_func)

/-- `deserialize(request.value)` for a `_reply` request (source lines
676-679): empty bytes give `None`; a serialized message gives the message;
any other payload makes `deserialize` raise. -/
def deserializeValue : Option Wire → Except PyError (Option MsgLike)
  | none => .ok none
  | some (.wmsg m) => .ok (some m)
  | some _ => .error (.valueError "deserialize: value is not a message")

/-- `AgentPlatform._reply` (source lines 664-694): deserialize the input,
allocate a task id, store a pending `threading.Condition` under it, submit
`process_messages` to the executor, and answer with a serialized
`Msg(name=agent.name, content=None, task_id=task_id)`.  The lookup
`self.agent_pool[request.agent_id]` raises `KeyError` when the agent is
absent, after the counter, pool and executor mutations already happened. -/
def _reply (p : AgentPlatform) (req : RpcMsg) :
    AgentPlatform × Except PyError RpcMsg :=
  match deserializeValue req.value with
  | .error e => (p, .error e)
  | .ok msg =>
    let r := get_task_id p
    let task_id := r.1
    let p2 := { r.2 with
      result_pool := poolSet r.2.max_pool_size r.2.result_pool task_id
        .pending }
    let p3 := { p2 with
      executor_queue := p2.executor_queue ++ [(task_id, req.agent_id, msg)] }
    match agentGet p3.agent_pool req.agent_id with
    | none => (p3, .error (.keyError req.agent_id))
    | some ag =>
      (p3, .ok { value := some (.wmsg (.concrete
        { name := ag.name, content := none, task_id := some task_id })) })

/-- The exit value of the wait loop of `_get` (source lines 711-717), run
over the successive values the result pool takes at each loop iteration
(the pool may change between the one-second waits).  `none` means the loop
has not exited within the given snapshots (the entry is still a pending
`Condition`); `some r` means the loop exited with `result = r`, where `r`
is `none` exactly when `ExpiringDict.get` returned `None` (unknown or
expired task id). -/
def getLoopResult : List ResultPool → Nat → Option (Option Msg)
  | [], _ => none
  | pool :: rest, tid =>
    match poolGet pool tid with
    | some .pending => getLoopResult rest tid
    | some (.done m) => some (some m)
    | none => some none

/-- `AgentPlatform._get` (source lines 696-718): parse
`{"task_id": n}` from the request, poll the result pool until the entry is
no longer a `Condition`, then return `RpcMsg(value=result.serialize())`.
When the loop exits with `result = None`, the attribute access
`None.serialize` raises `AttributeError`. -/
def _get (snapshots : List ResultPool) (req : RpcMsg) :
    Option (Except PyError RpcMsg) :=
  match req.value with
  | some (.wtask tid) =>
    (getLoopResult snapshots tid).map (fun r =>
      match r with
      | some m => .ok { value := some (.wmsg (.concrete m)) }
      | none =>
        .error (.attributeError
          "NoneType object has no attribute serialize"))
  | _ => some (.error (.valueError "json.loads: value is not a task id"))

/-- Resolution of every placeholder of an `_observe` payload (source lines
731-733): the first failing `update_value` raises out of the handler. -/
def resolveAll : List MsgLike → Except PyError (List Msg)
  | [] => .ok []
  | .concrete m :: rest => (resolveAll rest).map (fun ms => m :: ms)
  | .placeholder r :: rest =>
    match r with
    | .error e => .error e
    | .ok m => (resolveAll rest).map (fun ms => m :: ms)

/-- `AgentPlatform._observe` (source lines 720-735): deserialize the list,
resolve placeholders, then call `observe` on the agent
(`self.agent_pool[request.agent_id]` raises `KeyError` when absent; the
agent-internal effect of `observe` is opaque and leaves the platform state
unchanged). -/
def _observe (p : AgentPlatform) (req : RpcMsg) :
    AgentPlatform × Except PyError RpcMsg :=
  match req.value with
  | some (.wmsgs ms) =>
    match resolveAll ms with
    | .error e => (p, .error e)
    | .ok _resolved =>
      match agentGet p.agent_pool req.agent_id with
      | none => (p, .error (.keyError req.agent_id))
      | some _ag => (p, .ok {})
  | _ => (p, .error (.valueError "deserialize: value is not a message list"))

/-- The process-wide class registry.  Modelled from the spec:
`AgentBase.get_agent_class` (not under `src/`) resolves a registered class
name to a constructor and refuses unregistered names with an
"unknown agent class" error (spec sections 4.1 and 9). -/
abbrev ClassRegistry :=
  List (String × (List String → List (String × String) → Agent))

/-- `AgentBase.get_agent_class` over the modelled registry. -/
def get_agent_class (reg : ClassRegistry) (name : String) :
    Except PyError (List String → List (String × String) → Agent) :=
  match reg.find? (fun e => e.1 == name) with
  | some e => .ok e.2
  | none => .error (.valueError ("unknown agent class " ++ name))

/-- `AgentPlatform.check_and_generate_agent` (source lines 595-627), with
the number of constructor invocations returned alongside: under
`agent_id_lock`, if the agent exists do nothing; otherwise read
`agent_configs["class_name"]` (a `None` blob raises `TypeError`), look the
class up, construct the instance from the blob args and kwargs, forcibly
set its `agent_id`, and insert it. -/
def check_and_generate_agent (reg : ClassRegistry) (pool : AgentPool)
    (agent_id : String) (agent_configs : Option AgentConfigs) :
    Except PyError AgentPool × Nat :=
  if (agentGet pool agent_id).isSome then
    (.ok pool, 0)
  else
    match agent_configs with
    | none => (.error (.typeError "NoneType object is not subscriptable"), 0)
    | some cfg =>
      match get_agent_class reg cfg.class_name with
      | .error e => (.error e, 0)
      | .ok ctor =>
        let inst := ctor cfg.args cfg.kwargs
        (.ok (pool ++ [(agent_id, { inst with agent_id := agent_id })]), 1)

/-- `AgentPlatform._create_agent` (source lines 737-751): decode the blob
with `dill.loads` when the value is non-empty (passing `None` otherwise),
call `check_and_generate_agent`, and return an empty `RpcMsg`.  The
constructor-invocation count is carried through. -/
def _create_agent (reg : ClassRegistry) (p : AgentPlatform) (req : RpcMsg) :
    (AgentPlatform × Except PyError RpcMsg) × Nat :=
  let blob : Except PyError (Option AgentConfigs) :=
    match req.value with
    | none => .ok none
    | some (.wblob cfg) => .ok (some cfg)
    | some _ => .error (.valueError "dill.loads: value is not a blob")
  match blob with
  | .error e => ((p, .error e), 0)
  | .ok cfgs =>
    match check_and_generate_agent reg p.agent_pool req.agent_id cfgs with
    | (.error e, n) => ((p, .error e), n)
    | (.ok pool, n) => (({ p with agent_pool := pool }, .ok {}), n)

/-- `AgentPlatform.check_and_delete_agent` (source lines 629-640). -/
def check_and_delete_agent (pool : AgentPool) (agent_id : String) :
    AgentPool :=
  pool.filter (fun e => e.1 != agent_id)

/-- `AgentPlatform._delete_agent` (source lines 777-784). -/
def _delete_agent (p : AgentPlatform) (req : RpcMsg) :
    AgentPlatform × Except PyError RpcMsg :=
  ({ p with agent_pool := check_and_delete_agent p.agent_pool req.agent_id },
   .ok {})

/-- `AgentPlatform._clone_agent` (source lines 753-775): raise `ValueError`
when the source agent is absent; otherwise insert a fresh instance and
return its `agent_id`.  The `fresh` argument stands for the constructor
call `ori.__class__(*init_settings args, **kwargs)` — modelled from the
spec, since `AgentBase` and its `_init_settings` capture are not under
`src/`. -/
def _clone_agent (p : AgentPlatform) (req : RpcMsg) (fresh : Agent) :
    AgentPlatform × Except PyError RpcMsg :=
  match agentGet p.agent_pool req.agent_id with
  | none =>
    (p, .error (.valueError ("Agent [" ++ req.agent_id ++ "] not exists")))
  | some _ori =>
    ({ p with agent_pool := p.agent_pool ++ [(fresh.agent_id, fresh)] },
     .ok { value := some (.wtext fresh.agent_id) })

/-- The ERROR message built by the `except` branch of `process_messages`
(source lines 799-807). -/
def errorReplyMsg (agent_id : String) (tb : String) : Msg :=
  { name := "ERROR"
    role := "assistant"
    status := some "ERROR"
    content := some ("Error in agent [" ++ agent_id ++ "]:\n" ++ tb) }

/-- Resolution of the task input performed before the `try` block of
`process_messages` (source lines 793-794): placeholders call
`update_value`, whose failure propagates out of the worker. -/
def resolveTask : Option MsgLike → Except PyError (Option Msg)
  | none => .ok none
  | some (.concrete m) => .ok (some m)
  | some (.placeholder r) => r.map some

/-- `AgentPlatform.process_messages` (source lines 786-810): resolve a
placeholder input, read the pending `Condition` from the pool
(`self.result_pool[task_id]` raises `KeyError` when the entry was evicted),
then run `agent.reply` under `try`; on success store the reply, on any
exception store the ERROR message built from the formatted traceback
(the registry lookup `self.agent_pool[agent_id]` sits inside the `try`, so
its `KeyError` is captured the same way), and finally notify the waiters
(no extra state in this model, `_get` polls). -/
def process_messages (p : AgentPlatform) (task_id : Nat) (agent_id : String)
    (task_msg : Option MsgLike) : AgentPlatform × Except PyError Unit :=
  match resolveTask task_msg with
  | .error e => (p, .error e)
  | .ok msg =>
    match poolGet p.result_pool task_id with
    | none => (p, .error (.keyError (toString task_id)))
    | some _cond =>
      let outcome : Except PyError Msg :=
        match agentGet p.agent_pool agent_id with
        | none => .error (.keyError agent_id)
        | some ag => ag.reply msg
      let stored : Msg :=
        match outcome with
        | .ok result => result
        | .error e => errorReplyMsg agent_id (formatExc e)
      ({ p with result_pool :=
          poolSet p.max_pool_size p.result_pool task_id (.done stored) },
       .ok ())

/-- The network facts `check_port` depends on: whether a `connect()` probe
on `("localhost", port)` succeeds, and the port the operating system
assigns when binding `("", 0)`. -/
structure NetworkEnv where
  occupied : Nat → Bool
  ephemeral : Nat

/-- `find_available_port` (source lines 370-374): bind an ephemeral socket
and return the assigned port. -/
def find_available_port (env : NetworkEnv) : Nat :=
  env.ephemeral

/-- `check_port` (source lines 377-403): with no port, pick an ephemeral
one; with a port whose loopback `connect_ex` probe succeeds (the port is
occupied), pick an ephemeral one; otherwise return the requested port. -/
def check_port (env : NetworkEnv) (port : Option Nat) : Nat :=
  match port with
  | none => find_available_port env
  | some p =>
    if env.occupied p then find_available_port env else p

/-- `ImportErrorReporter` (`src/agentscope/utils/tools.py`, lines 301-334):
stores the original `ImportError`'s message and the extras requirement. -/
structure ImportErrorReporter where
  error_msg : String
  extras_require : Option String := none
deriving Repr, DecidableEq

/-- The message of the `ImportError` raised by
`ImportErrorReporter._raise_import_error` (source lines 326-334), with the
source's own spelling "occorred". -/
def raiseMessage (r : ImportErrorReporter) : String :=
  let base := "ImportError occorred: [" ++ r.error_msg ++ "]."
  match r.extras_require with
  | some extras =>
    base ++ " Please install [" ++ extras ++ "] version of agentscope."
  | none => base

/-- Outcome of accessing the reporter: either an ordinary attribute value
was found without raising, or an exception was raised. -/
inductive AttrOutcome
  | value
  | raised (e : PyError)
deriving Repr, DecidableEq

/-- The attributes found on an `ImportErrorReporter` by ordinary Python
lookup (instance attributes set in `__init__`, the class's methods, and
object-inherited attributes); `__getattr__` only runs when this lookup
fails. -/
def reporterAttrs : List String :=
  ["error", "extras_require", "_raise_import_error",
   "__call__", "__getattr__", "__getitem__", "__init__", "__class__",
   "__dict__", "__doc__", "__module__", "__repr__", "__str__", "__hash__",
   "__eq__", "__ne__", "__getattribute__", "__setattr__", "__delattr__",
   "__dir__", "__sizeof__", "__reduce__", "__reduce_ex__", "__format__",
   "__new__", "__init_subclass__", "__subclasshook__", "__weakref__"]

/-- `ImportErrorReporter.__call__` (source lines 317-318). -/
def reporter_call (r : ImportErrorReporter) : AttrOutcome :=
  .raised (.importError (raiseMessage r))

/-- `ImportErrorReporter.__getitem__` (source lines 323-324). -/
def reporter_getitem (r : ImportErrorReporter) : AttrOutcome :=
  .raised (.importError (raiseMessage r))

/-- Attribute access on an `ImportErrorReporter`: ordinary lookup finds the
object's own attributes; only when it fails does `__getattr__`
(source lines 320-321) run and raise. -/
def reporter_getattr (r : ImportErrorReporter) (name : String) :
    AttrOutcome :=
  if reporterAttrs.contains name then .value
  else .raised (.importError (raiseMessage r))

/-- One atomic state-changing event on a running server: an allocation of a
task id, a handler invocation, a worker run, or an eviction performed by
the `ExpiringDict` (capacity or age policy). -/
inductive Op
  | alloc
  | replyOp (req : RpcMsg)
  | observeOp (req : RpcMsg)
  | createOp (reg : ClassRegistry) (req : RpcMsg)
  | cloneOp (req : RpcMsg) (fresh : Agent)
  | deleteOp (req : RpcMsg)
  | processOp (task_id : Nat) (agent_id : String) (task_msg : Option MsgLike)
  | expireOp (task_id : Nat)

/-- The platform state after one event (the state a handler leaves behind is
kept even when the handler raises, as in the source). -/
def applyOp (p : AgentPlatform) : Op → AgentPlatform
  | .alloc => (get_task_id p).2
  | .replyOp req => (_reply p req).1
  | .observeOp req => (_observe p req).1
  | .createOp reg req => (_create_agent reg p req).1.1
  | .cloneOp req fresh => (_clone_agent p req fresh).1
  | .deleteOp req => (_delete_agent p req).1
  | .processOp tid aid msg => (process_messages p tid aid msg).1
  | .expireOp tid =>
    { p with result_pool := p.result_pool.filter (fun e => e.1 != tid) }

/-- `q` is reachable from `p` by a sequence of server events. -/
def Evolves (p q : AgentPlatform) : Prop :=
  ∃ ops : List Op, q = ops.foldl applyOp p

theorem applyOp_counter_mono (p : AgentPlatform) (op : Op) :
    p.task_id_counter ≤ (applyOp p op).task_id_counter := by
  cases op with
  | alloc => simp [applyOp, get_task_id]
  | replyOp req =>
    simp only [applyOp, _reply]
    cases deserializeValue req.value with
    | error e => simp
    | ok msg =>
      simp only [get_task_id]
      cases agentGet p.agent_pool req.agent_id with
      | none => simp
      | some ag => simp
  | observeOp req =>
    simp only [applyOp, _observe]
    cases h : req.value with
    | none => simp
    | some w =>
      cases w <;> simp only []
      case wmsgs ms =>
        cases resolveAll ms with
        | error e => simp
        | ok resolved =>
          cases agentGet p.agent_pool req.agent_id <;> simp
      all_goals simp
  | createOp reg req =>
    simp only [applyOp, _create_agent]
    cases h : req.value with
    | none =>
      simp only []
      cases check_and_generate_agent reg p.agent_pool req.agent_id none with
      | mk res n => cases res <;> simp
    | some w =>
      cases w <;> simp only []
      case wblob cfg =>
        cases check_and_generate_agent reg p.agent_pool req.agent_id
            (some cfg) with
        | mk res n => cases res <;> simp
      all_goals simp
  | cloneOp req fresh =>
    simp only [applyOp, _clone_agent]
    cases agentGet p.agent_pool req.agent_id <;> simp
  | deleteOp req => simp [applyOp, _delete_agent]
  | processOp tid aid msg =>
    simp only [applyOp, process_messages]
    cases resolveTask msg with
    | error e => simp
    | ok m =>
      simp only []
      cases poolGet p.result_pool tid <;> simp
  | expireOp tid => simp [applyOp]

theorem foldl_applyOp_counter_mono (ops : List Op) (p : AgentPlatform) :
    p.task_id_counter ≤ (ops.foldl applyOp p).task_id_counter := by
  induction ops generalizing p with
  | nil => simp
  | cons op rest ih =>
    exact Nat.le_trans (applyOp_counter_mono p op) (ih (applyOp p op))

theorem Evolves.counter_mono {p q : AgentPlatform} (h : Evolves p q) :
    p.task_id_counter ≤ q.task_id_counter := by
  obtain ⟨ops, rfl⟩ := h
  exact foldl_applyOp_counter_mono ops p

theorem find_map_update (pool : ResultPool) (tid : Nat) (st : TaskState)
    (h : (pool.find? (fun e => e.1 == tid)).isSome = true) :
    ((pool.map (fun e => if e.1 == tid then (tid, st) else e)).find?
      (fun e => e.1 == tid)) = some (tid, st) := by
  induction pool with
  | nil => simp at h
  | cons hd tl ih =>
    by_cases hk : (hd.1 == tid) = true
    · simp only [List.map_cons, if_pos hk]
      exact List.find?_cons_of_pos _ (by simp)
    · simp only [List.map_cons, if_neg hk]
      rw [List.find?_cons_of_neg
        (p := fun e : Nat × TaskState => e.1 == tid) (a := hd) _ hk]
      apply ih
      rw [List.find?_cons_of_neg
        (p := fun e : Nat × TaskState => e.1 == tid) (a := hd) _ hk] at h
      exact h

theorem find_none_of_sub {l1 l2 : List (Nat × TaskState)}
    (f : Nat × TaskState → Bool) (hsub : l1 ⊆ l2)
    (h : l2.find? f = none) : l1.find? f = none := by
  rw [List.find?_eq_none] at h ⊢
  intro x hx
  exact h x (hsub hx)

theorem poolGet_poolSet_self (maxLen : Nat) (pool : ResultPool) (tid : Nat)
    (st : TaskState) :
    poolGet (poolSet maxLen pool tid st) tid = some st := by
  unfold poolGet poolSet
  split
  · rename_i h
    rw [find_map_update pool tid st h]
    rfl
  · rename_i h
    have hnone : pool.find? (fun e => e.1 == tid) = none := by
      cases hf : pool.find? (fun e => e.1 == tid) with
      | none => rfl
      | some v => rw [hf] at h; simp at h
    have hnone2 : ((if maxLen ≤ pool.length then pool.drop 1 else
        pool).find? (fun e => e.1 == tid)) = none := by
      split
      · exact find_none_of_sub _ (List.drop_subset 1 pool) hnone
      · exact hnone
    rw [List.find?_append, hnone2]
    simp

/-- Concrete agent used by witnesses: replies by echoing the input
content. -/
def echoAgent : Agent :=
  { name := "echo"
    agent_id := "a"
    class_name := "Echo"
    init_args := []
    init_kwargs := []
    reply := fun m =>
      .ok { name := "echo", content := m.bind (fun x => x.content) } }

/-- Concrete agent whose `reply` always raises. -/
def boomAgent : Agent :=
  { name := "boom"
    agent_id := "a"
    class_name := "Boom"
    init_args := []
    init_kwargs := []
    reply := fun _ => .error (.agentException "Traceback: boom") }

/-- A server holding the echo agent under id "a". -/
def echoPlatform : AgentPlatform := { agent_pool := [("a", echoAgent)] }

/-- A server holding the raising agent under id "a", with task 1 pending. -/
def boomPlatform : AgentPlatform :=
  { result_pool := [(1, .pending)], agent_pool := [("a", boomAgent)] }

/-- A `_reply` request addressed to agent "a" with empty value. -/
def sampleReq : RpcMsg := { target_func := "_reply", agent_id := "a" }

/-- The task id carried by a serialized response message. -/
def respTaskId (r : RpcMsg) : Option Nat :=
  match r.value with
  | some (.wmsg (.concrete m)) => m.task_id
  | _ => none

theorem _reply_ok_spec (p q : AgentPlatform) (req resp : RpcMsg)
    (h : _reply p req = (q, .ok resp)) :
    q.task_id_counter = p.task_id_counter + 1 ∧
      respTaskId resp = some (p.task_id_counter + 1) := by
  unfold _reply at h
  split at h
  · simp at h
  · dsimp only [get_task_id] at h
    split at h
    · simp at h
    · rw [Prod.mk.injEq] at h
      obtain ⟨hq, hr⟩ := h
      injection hr with hr
      subst hq
      subst hr
      exact ⟨rfl, rfl⟩

/-- C1: the claim states that `_get` on an unknown or evicted task id
returns an ERROR Msg and does not fail the RPC.  The code instead lets
`ExpiringDict.get` return `None`, exits the wait loop, and evaluates
`None.serialize()`, raising `AttributeError` and failing the RPC.  This
theorem evaluates the embedded `_get` at the failing input: a fresh server
(empty result pool) and a request naming task id 1. -/
theorem c1_get_unknown_task_raises_attribute_error :
    _get [[]] { target_func := "_get", value := some (.wtask 1) } =
      some (.error (.attributeError
        "NoneType object has no attribute serialize")) := by
  rfl

/-- C2 (amended): when the agent's `reply` raises, `process_messages`
stores under the task id a Msg with status tag ERROR, name "ERROR", role
"assistant", and as content the string "Error in agent [agent_id]:"
followed by a newline and the formatted traceback; the worker itself
returns normally (no exception propagates, so nothing surfaces as an RPC
error).  The original claim said the content is the formatted traceback
itself; the code prefixes it. -/
theorem c2_reply_exception_stored_as_error_msg (p : AgentPlatform)
    (task_id : Nat) (agent_id : String) (msg : Option Msg) (ag : Agent)
    (e : PyError) (st : TaskState)
    (hcond : poolGet p.result_pool task_id = some st)
    (hag : agentGet p.agent_pool agent_id = some ag)
    (hraise : ag.reply msg = .error e) :
    (process_messages p task_id agent_id (msg.map .concrete)).2 = .ok () ∧
      poolGet (process_messages p task_id agent_id
          (msg.map .concrete)).1.result_pool task_id =
        some (.done
          { name := "ERROR", role := "assistant", status := some "ERROR",
            content := some ("Error in agent [" ++ agent_id ++ "]:\n"
              ++ formatExc e) }) := by
  have hres : resolveTask (msg.map .concrete) = .ok msg := by
    cases msg <;> rfl
  unfold process_messages
  simp only [hres, hcond, hag, hraise]
  refine ⟨trivial, ?_⟩
  rw [poolGet_poolSet_self]
  rfl

theorem c2_witness :
    poolGet boomPlatform.result_pool 1 = some .pending ∧
    agentGet boomPlatform.agent_pool "a" = some boomAgent ∧
    boomAgent.reply none = .error (.agentException "Traceback: boom") ∧
    (process_messages boomPlatform 1 "a" none).2 = .ok () ∧
    poolGet (process_messages boomPlatform 1 "a" none).1.result_pool 1 =
      some (.done
        { name := "ERROR", role := "assistant", status := some "ERROR",
          content := some ("Error in agent [" ++ "a" ++ "]:\n"
            ++ formatExc (.agentException "Traceback: boom")) }) := by
  refine ⟨rfl, rfl, rfl, ?_, ?_⟩
  · exact (c2_reply_exception_stored_as_error_msg boomPlatform 1 "a" none
      boomAgent (.agentException "Traceback: boom") .pending rfl rfl rfl).1
  · exact (c2_reply_exception_stored_as_error_msg boomPlatform 1 "a" none
      boomAgent (.agentException "Traceback: boom") .pending rfl rfl rfl).2

/-- C2 counterexample to the claim as stated: at a concrete failing reply
the stored content is the prefixed string, which differs from the formatted
traceback alone. -/
theorem c2_counterexample_prefixed_traceback :
    poolGet (process_messages boomPlatform 1 "a" none).1.result_pool 1 =
      some (.done (errorReplyMsg "a" "Traceback: boom")) ∧
    (errorReplyMsg "a" "Traceback: boom").content ≠
      some (formatExc (.agentException "Traceback: boom")) := by
  exact ⟨by decide, by decide⟩

/-- C3 (amended): `call_func` dispatches by `hasattr`/`getattr`, so the
INVALID_ARGUMENT "Unsupported method ..." abort is produced exactly for a
`target_func` that is not an attribute of the `AgentPlatform` object; any
attribute name — the six handlers, but equally any other method or field —
is dispatched instead.  The original claim said every name outside the six
recognized handlers gets the "Unsupported method" abort. -/
theorem c3_unknown_method_invalid_argument (p : AgentPlatform)
    (req : RpcMsg)
    (h : agentPlatformAttrs.contains req.target_func = false) :
    call_func p req = .abortCall .INVALID_ARGUMENT
      ("Unsupported method " ++ req.target_func) := by
  unfold call_func
  rw [h]
  simp

theorem c3_witness :
    agentPlatformAttrs.contains "frobnicate" = false ∧
    call_func {} { target_func := "frobnicate" } =
      .abortCall .INVALID_ARGUMENT ("Unsupported method " ++ "frobnicate") :=
  ⟨by decide,
   c3_unknown_method_invalid_argument {} { target_func := "frobnicate" }
     (by decide)⟩

/-- C3 counterexample to the claim as stated: "get_task_id" is not one of
the six recognized handler names, yet `call_func` does not produce the
"Unsupported method" abort for it (here it falls into the agent-existence
check instead, because `hasattr` finds the method). -/
theorem c3_counterexample_attribute_name_not_unsupported :
    (["_create_agent", "_delete_agent", "_clone_agent", "_reply", "_get",
        "_observe"].contains "get_task_id") = false ∧
    call_func {} { target_func := "get_task_id", agent_id := "x" } ≠
      .abortCall .INVALID_ARGUMENT ("Unsupported method " ++ "get_task_id") := by
  exact ⟨by decide, by decide⟩

/-- C4 (amended): for the recognized handlers other than `_create_agent`
and `_get`, a missing agent id aborts the call with INVALID_ARGUMENT and
the message "Agent [id] not exists." (the code's message carries a trailing
period, which the original claim omitted), without invoking the handler;
when the agent exists, the named handler is invoked. -/
theorem c4_missing_agent_invalid_argument (p : AgentPlatform)
    (req : RpcMsg)
    (h : req.target_func ∈
      ["_delete_agent", "_clone_agent", "_reply", "_observe"]) :
    (agent_exists p req.agent_id = false →
      call_func p req = .abortCall .INVALID_ARGUMENT
        ("Agent [" ++ req.agent_id ++ "] not exists.")) ∧
    (agent_exists p req.agent_id = true →
      call_func p req = .invokeHandler req.target_func) := by
  have m1 : ("_delete_agent" : String) ∈ agentPlatformAttrs := by decide
  have m2 : ("_clone_agent" : String) ∈ agentPlatformAttrs := by decide
  have m3 : ("_reply" : String) ∈ agentPlatformAttrs := by decide
  have m4 : ("_observe" : String) ∈ agentPlatformAttrs := by decide
  simp only [List.mem_cons, List.not_mem_nil, or_false] at h
  constructor <;> intro hex <;> unfold call_func <;>
    rcases h with h | h | h | h <;> rw [h] <;> simp [hex, m1, m2, m3, m4]

theorem c4_witness :
    (("_delete_agent" : String) ∈
      ["_delete_agent", "_clone_agent", "_reply", "_observe"]) ∧
    (agent_exists {} "x" = false →
      call_func {} { target_func := "_delete_agent", agent_id := "x" } =
        .abortCall .INVALID_ARGUMENT ("Agent [" ++ "x" ++ "] not exists.")) ∧
    (agent_exists {} "x" = true →
      call_func {} { target_func := "_delete_agent", agent_id := "x" } =
        .invokeHandler "_delete_agent") :=
  ⟨by decide,
   (c4_missing_agent_invalid_argument {}
     { target_func := "_delete_agent", agent_id := "x" } (by decide)).1,
   (c4_missing_agent_invalid_argument {}
     { target_func := "_delete_agent", agent_id := "x" } (by decide)).2⟩

/-- C4 counterexample to the claim as stated: on a server with no agents,
the abort message for a `_delete_agent` request is "Agent [x] not exists."
with a trailing period, which is not the string "Agent [x] not exists"
quoted by the claim. -/
theorem c4_counterexample_message_has_trailing_period :
    call_func {} { target_func := "_delete_agent", agent_id := "x" } =
      .abortCall .INVALID_ARGUMENT "Agent [x] not exists." ∧
    ("Agent [x] not exists." ≠ "Agent [x] not exists") := by
  exact ⟨by decide, by decide⟩

/-- The server state after the first witness `_reply`. -/
def afterOneReply : AgentPlatform :=
  { task_id_counter := 1
    result_pool := [(1, .pending)]
    agent_pool := [("a", echoAgent)]
    executor_queue := [(1, "a", none)] }

/-- The server state after the second witness `_reply`. -/
def afterTwoReplies : AgentPlatform :=
  { task_id_counter := 2
    result_pool := [(1, .pending), (2, .pending)]
    agent_pool := [("a", echoAgent)]
    executor_queue := [(1, "a", none), (2, "a", none)] }

/-- The envelope returned by the first witness `_reply`. -/
def firstResp : RpcMsg :=
  { value := some (.wmsg (.concrete
      { name := "echo", content := none, task_id := some 1 })) }

/-- The envelope returned by the second witness `_reply`. -/
def secondResp : RpcMsg :=
  { value := some (.wmsg (.concrete
      { name := "echo", content := none, task_id := some 2 })) }

/-- C5: on one server, the task id returned by an earlier `_reply` is
strictly below the one returned by any later `_reply`: allocation happens
under `task_id_lock` (modelled as an atomic step), and between the two
calls the server may perform any sequence of events (`Evolves` covers
every handler, worker run and pool eviction, i.e. any serialization of
concurrent activity), none of which decreases the counter. -/
theorem c5_task_ids_strictly_increasing
    (p1 q1 p2 q2 : AgentPlatform) (r1 r2 resp1 resp2 : RpcMsg)
    (t1 t2 : Nat)
    (h1 : _reply p1 r1 = (q1, .ok resp1))
    (ht1 : respTaskId resp1 = some t1)
    (he : Evolves q1 p2)
    (h2 : _reply p2 r2 = (q2, .ok resp2))
    (ht2 : respTaskId resp2 = some t2) :
    t1 < t2 := by
  obtain ⟨hc1, hr1⟩ := _reply_ok_spec p1 q1 r1 resp1 h1
  obtain ⟨hc2, hr2⟩ := _reply_ok_spec p2 q2 r2 resp2 h2
  rw [hr1] at ht1
  rw [hr2] at ht2
  injection ht1 with ht1
  injection ht2 with ht2
  have hm := he.counter_mono
  omega

theorem c5_witness : (1 : Nat) < 2 :=
  c5_task_ids_strictly_increasing echoPlatform afterOneReply afterOneReply
    afterTwoReplies sampleReq sampleReq firstResp secondResp 1 2
    (by rfl) (by rfl) ⟨[], rfl⟩ (by rfl) (by rfl)

/-- C6: `_reply` on an existing agent increments the counter, inserts a
Pending record for the fresh task id into the result pool, appends the job
to the executor queue (submitted, not executed: the returned pool entry is
still Pending, so `_reply` has not waited for the work), and returns an
envelope whose serialized Msg has the agent's name, null content, and the
fresh task id. -/
theorem c6_reply_returns_future_envelope (p : AgentPlatform)
    (req : RpcMsg) (ag : Agent) (m : Option MsgLike)
    (hag : agentGet p.agent_pool req.agent_id = some ag)
    (hdec : deserializeValue req.value = .ok m) :
    _reply p req =
      ({ p with
          task_id_counter := p.task_id_counter + 1,
          result_pool := poolSet p.max_pool_size p.result_pool
            (p.task_id_counter + 1) .pending,
          executor_queue := p.executor_queue ++
            [(p.task_id_counter + 1, req.agent_id, m)] },
       .ok { value := some (.wmsg (.concrete
         { name := ag.name, content := none,
           task_id := some (p.task_id_counter + 1) })) }) ∧
    poolGet (poolSet p.max_pool_size p.result_pool (p.task_id_counter + 1)
        .pending) (p.task_id_counter + 1) = some .pending := by
  refine ⟨?_, poolGet_poolSet_self _ _ _ _⟩
  unfold _reply
  rw [hdec]
  dsimp only [get_task_id]
  rw [hag]

theorem c6_witness :
    agentGet echoPlatform.agent_pool sampleReq.agent_id = some echoAgent ∧
    deserializeValue sampleReq.value = .ok none ∧
    _reply echoPlatform sampleReq = (afterOneReply, .ok firstResp) ∧
    poolGet afterOneReply.result_pool 1 = some .pending := by
  refine ⟨rfl, rfl, ?_, rfl⟩
  exact (c6_reply_returns_future_envelope echoPlatform sampleReq
    echoAgent none rfl rfl).1

/-- C7: `check_port` returns the ephemeral port found by
`find_available_port` when no port is given, and likewise when the
requested port answers the loopback connect probe (occupied); otherwise it
returns exactly the requested port. -/
theorem c7_check_port_selection (env : NetworkEnv) (p : Nat) :
    check_port env none = find_available_port env ∧
    (env.occupied p = true →
      check_port env (some p) = find_available_port env) ∧
    (env.occupied p = false → check_port env (some p) = p) := by
  refine ⟨rfl, ?_, ?_⟩ <;> intro h <;> simp [check_port, h]

/-- A sample network where only port 80 answers the loopback probe. -/
def netEnv : NetworkEnv := { occupied := fun n => n == 80, ephemeral := 50123 }

theorem c7_witness :
    check_port netEnv none = find_available_port netEnv ∧
    check_port netEnv (some 80) = find_available_port netEnv ∧
    check_port netEnv (some 81) = 81 :=
  ⟨(c7_check_port_selection netEnv 80).1,
   (c7_check_port_selection netEnv 80).2.1 rfl,
   (c7_check_port_selection netEnv 81).2.2 rfl⟩

/-- C8: registry create semantics — when the agent id already exists the
registry is returned unchanged and no constructor runs (invocation count
0), for any blob, and the empty-value `_create_agent` (decode no-op,
configs `None`) likewise leaves the platform unchanged; when the id is
absent and the blob's class is registered, the instance is constructed from
the blob's args and kwargs, its `agent_id` is forcibly set to the requested
value, and it is inserted (invocation count 1). -/
theorem c8_create_agent_semantics (reg : ClassRegistry) (p : AgentPlatform)
    (agent_id : String) (cfgs : Option AgentConfigs) (cfg : AgentConfigs)
    (ctor : List String → List (String × String) → Agent) :
    ((agentGet p.agent_pool agent_id).isSome = true →
      check_and_generate_agent reg p.agent_pool agent_id cfgs =
        (.ok p.agent_pool, 0) ∧
      _create_agent reg p { agent_id := agent_id } = ((p, .ok {}), 0)) ∧
    ((agentGet p.agent_pool agent_id).isSome = false →
      get_agent_class reg cfg.class_name = .ok ctor →
      check_and_generate_agent reg p.agent_pool agent_id (some cfg) =
        (.ok (p.agent_pool ++ [(agent_id,
          { ctor cfg.args cfg.kwargs with agent_id := agent_id })]), 1)) := by
  constructor
  · intro hex
    constructor
    · unfold check_and_generate_agent
      simp [hex]
    · unfold _create_agent
      dsimp only
      unfold check_and_generate_agent
      simp [hex]
  · intro hex hcls
    unfold check_and_generate_agent
    simp [hex, hcls]

/-- Constructor registered under the class name "Echo". -/
def echoCtor : List String → List (String × String) → Agent :=
  fun args kwargs =>
    { name := "echo"
      agent_id := "fresh"
      class_name := "Echo"
      init_args := args
      init_kwargs := kwargs
      reply := fun m =>
        .ok { name := "echo", content := m.bind (fun x => x.content) } }

/-- A class registry holding only "Echo". -/
def sampleRegistry : ClassRegistry := [("Echo", echoCtor)]

/-- A constructor blob naming the "Echo" class. -/
def sampleCfg : AgentConfigs := { class_name := "Echo", args := [], kwargs := [] }

theorem c8_witness :
    check_and_generate_agent sampleRegistry [("a", echoAgent)] "a"
        (some sampleCfg) = (.ok [("a", echoAgent)], 0) ∧
    _create_agent sampleRegistry { agent_pool := [("a", echoAgent)] }
        { agent_id := "a" } =
      (({ agent_pool := [("a", echoAgent)] }, .ok {}), 0) ∧
    check_and_generate_agent sampleRegistry [] "b" (some sampleCfg) =
      (.ok [("b", { echoCtor [] [] with agent_id := "b" })], 1) := by
  refine ⟨?_, ?_, ?_⟩
  · exact ((c8_create_agent_semantics sampleRegistry
      { agent_pool := [("a", echoAgent)] } "a" (some sampleCfg) sampleCfg
      echoCtor).1 rfl).1
  · exact ((c8_create_agent_semantics sampleRegistry
      { agent_pool := [("a", echoAgent)] } "a" (some sampleCfg) sampleCfg
      echoCtor).1 rfl).2
  · exact (c8_create_agent_semantics sampleRegistry
      { agent_pool := [] } "b" (some sampleCfg) sampleCfg echoCtor).2 rfl rfl

/-- C9 (amended): with the "distribute" extras hint recorded, calling the
reporter, indexing it, or accessing any attribute the reporter object does
not itself possess raises an ImportError whose message carries the original
error text and the "distribute" install hint.  The original claim said any
attribute access raises; ordinary Python lookup finds the reporter's own
attributes (such as `error`) first, and `__getattr__` never runs for
them. -/
theorem c9_missing_dependency_usage_raises (r : ImportErrorReporter)
    (name : String)
    (hextras : r.extras_require = some "distribute")
    (hname : reporterAttrs.contains name = false) :
    reporter_call r = .raised (.importError
      ("ImportError occorred: [" ++ r.error_msg ++ "]." ++
       " Please install [" ++ "distribute" ++ "] version of agentscope.")) ∧
    reporter_getitem r = .raised (.importError
      ("ImportError occorred: [" ++ r.error_msg ++ "]." ++
       " Please install [" ++ "distribute" ++ "] version of agentscope.")) ∧
    reporter_getattr r name = .raised (.importError
      ("ImportError occorred: [" ++ r.error_msg ++ "]." ++
       " Please install [" ++ "distribute" ++ "] version of agentscope.")) := by
  have hm : raiseMessage r =
      "ImportError occorred: [" ++ r.error_msg ++ "]." ++
      " Please install [" ++ "distribute" ++ "] version of agentscope." := by
    unfold raiseMessage
    rw [hextras]
  refine ⟨?_, ?_, ?_⟩
  · unfold reporter_call
    rw [hm]
  · unfold reporter_getitem
    rw [hm]
  · unfold reporter_getattr
    rw [hname, hm]
    simp

/-- The reporter substituted for the missing `dill` module
(rpc_agent.py lines 16-27). -/
def distReporter : ImportErrorReporter :=
  { error_msg := "No module named dill", extras_require := some "distribute" }

theorem c9_witness :
    distReporter.extras_require = some "distribute" ∧
    reporterAttrs.contains "loads" = false ∧
    reporter_getattr distReporter "loads" = .raised (.importError
      ("ImportError occorred: [" ++ distReporter.error_msg ++ "]." ++
       " Please install [" ++ "distribute" ++ "] version of agentscope.")) :=
  ⟨rfl, by decide,
   (c9_missing_dependency_usage_raises distReporter "loads" rfl
     (by decide)).2.2⟩

/-- C9 counterexample to the claim as stated: accessing the reporter's own
attribute `error` returns the stored value and raises nothing. -/
theorem c9_counterexample_own_attribute_access_not_raising :
    reporter_getattr distReporter "error" = .value ∧
    reporter_getattr distReporter "error" ≠
      .raised (.importError (raiseMessage distReporter)) := by
  exact ⟨by decide, by decide⟩

/-- C10: on a freshly constructed platform the successive `get_task_id`
calls return 1, 2, ..., n (the n-th call returns exactly n); every
allocation on any platform returns at least 1, so 0 is never handed out;
and the first `_reply` on a fresh server answers with task id 1. -/
theorem c10_task_ids_start_at_one :
    (∀ host port mp mt n, taskIds (initPlatform host port mp mt) n =
      List.range' 1 n) ∧
    (∀ p : AgentPlatform, 1 ≤ (get_task_id p).1) ∧
    (_reply echoPlatform sampleReq).2 = .ok { value := some (.wmsg
      (.concrete { name := "echo", content := none, task_id := some 1 })) } := by
  refine ⟨?_, ?_, rfl⟩
  · intro host port mp mt n
    rw [taskIds_eq_range]
    rfl
  · intro p
    simp [get_task_id]

end AgentScope


